import Mathlib

/-!
Shallow embedding of the infinite-canvas block positioning, drag/resize,
zoom and page/session logic of `frontend/src/components/InfiniteCanvas.tsx`.

Coordinates, sizes and the zoom scale are JavaScript numbers in the source;
they are embedded as exact rationals (ℚ).  `Math.round` is embedded as
Mathlib's `round` (round half toward +∞, `round x = ⌊x + 1/2⌋`), which agrees
with JavaScript's `Math.round` at every rational.  Block order indices are
natural numbers (blocks are created with `orderIndex = page.blocks.length`).
Optional JavaScript fields (`undefined`/`null`) are embedded as `Option`.
-/

/-- The `BlockPosition` interface: an on-canvas rectangle. -/
structure BlockPosition where
  x : ℚ
  y : ℚ
  width : ℚ
  height : ℚ
deriving DecidableEq, Repr

/-- The four block type tags of the `Block` interface. -/
inductive BlockType where
  | text
  | code
  | drawing
  | image
deriving DecidableEq, Repr

/-- A block content payload.  The source stores `content` as a free-form
object; the fields below are the union of the fields the component ever
reads or writes (text, code, language, output, drawing data, image url,
image localData, and the canvas-injected `position` sub-record).  `none`
embeds an absent key. -/
structure Content where
  text : Option String := none
  code : Option String := none
  language : Option String := none
  output : Option String := none
  data : Option String := none
  url : Option String := none
  localData : Option String := none
  position : Option BlockPosition := none
deriving DecidableEq, Repr

/-- The `Block` interface. -/
structure Block where
  id : String
  pageId : String
  type : BlockType
  content : Content
  orderIndex : ℕ
deriving DecidableEq, Repr

/-- The `Page` interface. -/
structure PageState where
  id : String
  title : String
  blocks : List Block
deriving DecidableEq, Repr

/-- A default width/height pair. -/
structure Size where
  width : ℚ
  height : ℚ
deriving DecidableEq, Repr

/-- The `DEFAULT_SIZES` record literal (text 400×150, code 500×350,
drawing 600×400, image 400×300). -/
def DEFAULT_SIZES : BlockType → Size
  | BlockType.text => ⟨400, 150⟩
  | BlockType.code => ⟨500, 350⟩
  | BlockType.drawing => ⟨600, 400⟩
  | BlockType.image => ⟨400, 300⟩

/-- `const GRID_SIZE = 20`. -/
def GRID_SIZE : ℚ := 20

/-- Grid snapping as written in the source:
`Math.round(q / GRID_SIZE) * GRID_SIZE`. -/
def snap (q : ℚ) : ℚ := (round (q / GRID_SIZE) : ℤ) * GRID_SIZE

/-- `getBlockPosition`: the stored `content.position` when present,
otherwise the 3-column grid default
`x = 100 + (orderIndex % 3) * 450`, `y = 100 + ⌊orderIndex / 3⌋ * 280`
with the type's default size. -/
def getBlockPosition (b : Block) : BlockPosition :=
  let defaultSize := DEFAULT_SIZES b.type
  match b.content.position with
  | some p => p
  | none =>
      { x := 100 + ((b.orderIndex % 3 : ℕ) : ℚ) * 450
        y := 100 + ((b.orderIndex / 3 : ℕ) : ℚ) * 280
        width := defaultSize.width
        height := defaultSize.height }

/-- C1: a block with no stored position derives the grid-default rectangle
`{x = 100 + (orderIndex % 3)*450, y = 100 + ⌊orderIndex/3⌋*280}` with the
type-specific default size (text 400×150, code 500×350, drawing 600×400,
image 400×300); the result is a pure function of `(orderIndex, type)`, so
it is stable across repeated calls. -/
theorem getBlockPosition_default_grid (b : Block)
    (h : b.content.position = none) :
    getBlockPosition b =
      { x := 100 + ((b.orderIndex % 3 : ℕ) : ℚ) * 450
        y := 100 + ((b.orderIndex / 3 : ℕ) : ℚ) * 280
        width := (DEFAULT_SIZES b.type).width
        height := (DEFAULT_SIZES b.type).height } ∧
    (DEFAULT_SIZES BlockType.text = ⟨400, 150⟩ ∧
     DEFAULT_SIZES BlockType.code = ⟨500, 350⟩ ∧
     DEFAULT_SIZES BlockType.drawing = ⟨600, 400⟩ ∧
     DEFAULT_SIZES BlockType.image = ⟨400, 300⟩) ∧
    (∀ b2 : Block, b2.content.position = none →
      b2.orderIndex = b.orderIndex → b2.type = b.type →
      getBlockPosition b2 = getBlockPosition b) := by
  refine ⟨?_, ⟨rfl, rfl, rfl, rfl⟩, ?_⟩
  · simp [getBlockPosition, h]
  · intro b2 h2 hoi hty
    simp [getBlockPosition, h, h2, hoi, hty]

/-- A concrete code block with `orderIndex = 4` and no stored position,
used to witness `getBlockPosition_default_grid`. -/
def exampleDefaultBlock : Block :=
  { id := "b1", pageId := "p1", type := BlockType.code, content := {}, orderIndex := 4 }

/-- Closed witness for `getBlockPosition_default_grid` at a concrete
code block with `orderIndex = 4` and no stored position. -/
theorem getBlockPosition_default_grid_witness :
    exampleDefaultBlock.content.position = none ∧
    (getBlockPosition exampleDefaultBlock =
      { x := 100 + ((exampleDefaultBlock.orderIndex % 3 : ℕ) : ℚ) * 450
        y := 100 + ((exampleDefaultBlock.orderIndex / 3 : ℕ) : ℚ) * 280
        width := (DEFAULT_SIZES exampleDefaultBlock.type).width
        height := (DEFAULT_SIZES exampleDefaultBlock.type).height } ∧
     (DEFAULT_SIZES BlockType.text = ⟨400, 150⟩ ∧
      DEFAULT_SIZES BlockType.code = ⟨500, 350⟩ ∧
      DEFAULT_SIZES BlockType.drawing = ⟨600, 400⟩ ∧
      DEFAULT_SIZES BlockType.image = ⟨400, 300⟩) ∧
     (∀ b2 : Block, b2.content.position = none →
       b2.orderIndex = exampleDefaultBlock.orderIndex →
       b2.type = exampleDefaultBlock.type →
       getBlockPosition b2 = getBlockPosition exampleDefaultBlock)) :=
  ⟨rfl, getBlockPosition_default_grid exampleDefaultBlock rfl⟩

/-- C2: a block with a stored position derives exactly that stored value,
regardless of its `orderIndex`; the grid default is never recomputed. -/
theorem getBlockPosition_stored_verbatim (b : Block) (p : BlockPosition)
    (h : b.content.position = some p) :
    getBlockPosition b = p := by
  simp [getBlockPosition, h]

/-- A concrete block with a stored position and an `orderIndex` whose
grid default would differ, used to witness
`getBlockPosition_stored_verbatim`. -/
def exampleStoredBlock : Block :=
  { id := "b2", pageId := "p1", type := BlockType.text,
    content := { position := some ⟨7, 9, 220, 130⟩ }, orderIndex := 5 }

/-- Closed witness for `getBlockPosition_stored_verbatim` at a concrete
block with a stored position. -/
theorem getBlockPosition_stored_verbatim_witness :
    exampleStoredBlock.content.position = some (⟨7, 9, 220, 130⟩ : BlockPosition) ∧
    getBlockPosition exampleStoredBlock = ⟨7, 9, 220, 130⟩ :=
  ⟨rfl, getBlockPosition_stored_verbatim exampleStoredBlock _ rfl⟩

/-- The `mode` tag of the drag state: `'drag' | 'resize'`. -/
inductive DragMode where
  | drag
  | resize
deriving DecidableEq, Repr

/-- The `dragState` record: active block, pointer coordinates at gesture
start, the block's rectangle at gesture start, and the mode. -/
structure DragState where
  blockId : String
  startX : ℚ
  startY : ℚ
  startPos : BlockPosition
  mode : DragMode
deriving DecidableEq, Repr

/-- The component state touched by the canvas pointer handlers. -/
structure CanvasState where
  page : PageState
  scale : ℚ
  offset : ℚ × ℚ
  isPanning : Bool
  panStart : ℚ × ℚ
  dragState : Option DragState
deriving DecidableEq, Repr

/-- Effects the handlers perform, in order: local React state changes and
calls to the remote API. -/
inductive Event where
  | localSetPosition (blockId : String) (p : BlockPosition)
  | localSetContent (blockId : String) (c : Content)
  | localRemoveBlock (blockId : String)
  | localAppendBlock (b : Block)
  | apiCreate (pageId : String) (ty : BlockType) (c : Content) (orderIndex : ℕ)
  | apiUpdate (blockId : String) (c : Content)
  | apiDelete (blockId : String)
  | reloadPage
deriving DecidableEq, Repr

/-- Whether an event is a remote persistence request. -/
def isPersist : Event → Bool
  | Event.apiCreate _ _ _ _ => true
  | Event.apiUpdate _ _ => true
  | Event.apiDelete _ => true
  | _ => false

/-- The candidate rectangle computed by `handleCanvasMouseMove` during a
gesture: pointer delta divided by the scale, then for `drag` mode x/y are
snapped to the 20-unit grid, and for `resize` mode width/height are snapped
and floored at 200/100. -/
def moveCandidate (ds : DragState) (scale clientX clientY : ℚ) : BlockPosition :=
  let dx := (clientX - ds.startX) / scale
  let dy := (clientY - ds.startY) / scale
  match ds.mode with
  | DragMode.drag =>
      { ds.startPos with
        x := snap (ds.startPos.x + dx)
        y := snap (ds.startPos.y + dy) }
  | DragMode.resize =>
      { ds.startPos with
        width := max 200 (snap (ds.startPos.width + dx))
        height := max 100 (snap (ds.startPos.height + dy)) }

/-- `page.blocks.find(b => b.id === blockId)`. -/
def findBlock (p : PageState) (blockId : String) : Option Block :=
  p.blocks.find? (fun b => b.id == blockId)

/-- The per-block update applied by `setPage` during a gesture move:
`b.id === blockId ? { ...b, content: { ...b.content, position: newPosition } } : b`. -/
def applyCandidate (blockId : String) (newPosition : BlockPosition) (b : Block) : Block :=
  if b.id == blockId then
    { b with content := { b.content with position := some newPosition } }
  else b

/-- `handleCanvasMouseMove`: while panning, track the offset; during a
gesture, compute the candidate rectangle and apply it to local state
(no remote call). -/
def handleCanvasMouseMove (s : CanvasState) (clientX clientY : ℚ) :
    CanvasState × List Event :=
  if s.isPanning then
    ({ s with offset := (clientX - s.panStart.1, clientY - s.panStart.2) }, [])
  else
    match s.dragState with
    | none => (s, [])
    | some ds =>
        match findBlock s.page ds.blockId with
        | none => (s, [])
        | some _ =>
            let newPosition := moveCandidate ds s.scale clientX clientY
            ({ s with
                page := { s.page with
                  blocks := s.page.blocks.map (applyCandidate ds.blockId newPosition) } },
             [Event.localSetPosition ds.blockId newPosition])

/-- `saveBlockPosition`: look the block up and send its content with the
`position` key replaced; defensive no-op when the block is gone. -/
def saveBlockPosition (page : PageState) (blockId : String)
    (position : BlockPosition) : List Event :=
  match findBlock page blockId with
  | none => []
  | some block =>
      [Event.apiUpdate blockId { block.content with position := some position }]

/-- `handleCanvasMouseUp`: persist the active block's current rectangle
once, then clear panning and the drag state. -/
def handleCanvasMouseUp (s : CanvasState) : CanvasState × List Event :=
  let evs :=
    match s.dragState with
    | none => []
    | some ds =>
        match findBlock s.page ds.blockId with
        | none => []
        | some block => saveBlockPosition s.page ds.blockId (getBlockPosition block)
  ({ s with isPanning := false, dragState := none }, evs)

/-- Run a list of pointer-move events through `handleCanvasMouseMove`,
collecting the effects in order. -/
def runMoves : CanvasState → List (ℚ × ℚ) → CanvasState × List Event
  | s, [] => (s, [])
  | s, (cx, cy) :: rest =>
      let step := handleCanvasMouseMove s cx cy
      let r := runMoves step.1 rest
      (r.1, step.2 ++ r.2)

/-- A full gesture: a sequence of pointer moves followed by pointer-up. -/
def runGesture (s : CanvasState) (moves : List (ℚ × ℚ)) :
    CanvasState × List Event :=
  let m := runMoves s moves
  let u := handleCanvasMouseUp m.1
  (u.1, m.2 ++ u.2)

/-- C3: during a resize gesture, every pointer-move produces a rectangle
with width at least 200 and height at least 100, whatever the pointer
delta and scale. -/
theorem resize_floor_bounds (ds : DragState) (hMode : ds.mode = DragMode.resize)
    (scale clientX clientY : ℚ) :
    200 ≤ (moveCandidate ds scale clientX clientY).width ∧
    100 ≤ (moveCandidate ds scale clientX clientY).height := by
  simp only [moveCandidate, hMode]
  exact ⟨le_max_left _ _, le_max_left _ _⟩

/-- A concrete resize drag state used to witness `resize_floor_bounds`:
the pointer moves far past the lower bound. -/
def exampleResizeState : DragState :=
  { blockId := "b1", startX := 0, startY := 0,
    startPos := ⟨100, 100, 400, 150⟩, mode := DragMode.resize }

/-- Closed witness for `resize_floor_bounds`: a pointer move of
(-100000, -100000) at scale 1 still yields width ≥ 200, height ≥ 100. -/
theorem resize_floor_bounds_witness :
    exampleResizeState.mode = DragMode.resize ∧
    (200 ≤ (moveCandidate exampleResizeState 1 (-100000) (-100000)).width ∧
     100 ≤ (moveCandidate exampleResizeState 1 (-100000) (-100000)).height) :=
  ⟨rfl, resize_floor_bounds exampleResizeState rfl 1 (-100000) (-100000)⟩

/-- A zoom operation: a ctrl-wheel step (`deltaY > 0` multiplies the scale
by 0.9, otherwise by 1.1, clamped to [0.25, 2]), the toolbar zoom-in button
(`min 2 (s + 0.1)`), or the toolbar zoom-out button (`max 0.25 (s - 0.1)`). -/
inductive ZoomOp where
  | wheel (deltaYPos : Bool)
  | btnIn
  | btnOut
deriving DecidableEq, Repr

/-- One zoom operation applied to the current scale, as in `handleWheel`
and the two zoom buttons. -/
def applyZoom (s : ℚ) : ZoomOp → ℚ
  | ZoomOp.wheel true => min 2 (max 0.25 (s * 0.9))
  | ZoomOp.wheel false => min 2 (max 0.25 (s * 1.1))
  | ZoomOp.btnIn => min 2 (s + 0.1)
  | ZoomOp.btnOut => max 0.25 (s - 0.1)

/-- A sequence of zoom operations applied from the initial scale 1. -/
def runZoom (ops : List ZoomOp) : ℚ := ops.foldl applyZoom 1

lemma applyZoom_bounds (s : ℚ) (op : ZoomOp) (h1 : 0.25 ≤ s) (h2 : s ≤ 2) :
    0.25 ≤ applyZoom s op ∧ applyZoom s op ≤ 2 := by
  cases op with
  | wheel pos =>
      cases pos <;>
        exact ⟨le_min (by norm_num) (le_trans (by norm_num) (le_max_left _ _)),
               min_le_left _ _⟩
  | btnIn =>
      exact ⟨le_min (by norm_num) (by linarith), min_le_left _ _⟩
  | btnOut =>
      exact ⟨le_max_left _ _, max_le (by norm_num) (by linarith)⟩

lemma foldl_applyZoom_bounds (ops : List ZoomOp) :
    ∀ s : ℚ, 0.25 ≤ s → s ≤ 2 →
      0.25 ≤ ops.foldl applyZoom s ∧ ops.foldl applyZoom s ≤ 2 := by
  induction ops with
  | nil => intro s h1 h2; exact ⟨h1, h2⟩
  | cons op rest ih =>
      intro s h1 h2
      have hb := applyZoom_bounds s op h1 h2
      exact ih (applyZoom s op) hb.1 hb.2

/-- C4: starting from scale 1, any sequence of wheel-zoom steps (×0.9 or
×1.1) and zoom-button steps (±0.1) leaves the viewport scale in
[0.25, 2.0]. -/
theorem zoom_scale_clamped (ops : List ZoomOp) :
    0.25 ≤ runZoom ops ∧ runZoom ops ≤ 2 :=
  foldl_applyZoom_bounds ops 1 (by norm_num) (by norm_num)

/-- JavaScript object-spread semantics on one optional key: a key present
in the update wins, otherwise the old value is kept. -/
def spreadOpt {α : Type} (old upd : Option α) : Option α :=
  match upd with
  | some v => some v
  | none => old

/-- `{ ...old, ...upd }` on content payloads, key by key. -/
def spreadContent (old upd : Content) : Content :=
  { text := spreadOpt old.text upd.text
    code := spreadOpt old.code upd.code
    language := spreadOpt old.language upd.language
    output := spreadOpt old.output upd.output
    data := spreadOpt old.data upd.data
    url := spreadOpt old.url upd.url
    localData := spreadOpt old.localData upd.localData
    position := spreadOpt old.position upd.position }

/-- The merge performed by `updateBlockContent`:
`{ ...block.content, ...newContent, position: currentPosition }` — a shallow
spread whose `position` key is then overwritten with the block's current
position. -/
def mergeContent (old upd : Content) : Content :=
  { spreadContent old upd with position := old.position }

/-- `updateBlockContent(blockId, newContent)`: find the block, merge, apply
the merge to local state (every block with that id), then persist the same
merged content. -/
def updateBlockContent (page : PageState) (blockId : String)
    (newContent : Content) : PageState × List Event :=
  match findBlock page blockId with
  | none => (page, [])
  | some block =>
      let mergedContent := mergeContent block.content newContent
      ({ page with
          blocks := page.blocks.map (fun b =>
            if b.id == blockId then { b with content := mergedContent } else b) },
       [Event.localSetContent blockId mergedContent,
        Event.apiUpdate blockId mergedContent])

/-- The existing code-block content of the C5 example:
`{code: "x", language: "javascript", output: "y"}` with a stored position. -/
def exampleOldContent : Content :=
  { code := some "x", language := some "javascript", output := some "y",
    position := some ⟨0, 0, 500, 350⟩ }

/-- A partial update that carries a `position` key. -/
def examplePositionUpdate : Content :=
  { position := some ⟨40, 40, 500, 350⟩ }

/-- A one-block page holding the C5 example content. -/
def examplePage : PageState :=
  { id := "p1", title := "t",
    blocks := [{ id := "b1", pageId := "p1", type := BlockType.code,
                 content := exampleOldContent, orderIndex := 0 }] }

/-- C5 counterexample: `updateBlockContent` is not a plain shallow merge —
a field present in the partial update does not always replace the old
value.  Updating `{position: (40,40,500,350)}` on a block whose content
stores position `(0,0,500,350)` leaves the old position in place, both in
local state and in the persisted payload. -/
theorem updateBlockContent_position_not_replaced :
    examplePositionUpdate.position = some (⟨40, 40, 500, 350⟩ : BlockPosition) ∧
    (updateBlockContent examplePage "b1" examplePositionUpdate).2 =
      [Event.localSetContent "b1" exampleOldContent,
       Event.apiUpdate "b1" exampleOldContent] ∧
    (mergeContent exampleOldContent examplePositionUpdate).position =
      some (⟨0, 0, 500, 350⟩ : BlockPosition) ∧
    (mergeContent exampleOldContent examplePositionUpdate).position ≠
      examplePositionUpdate.position := by
  refine ⟨rfl, ?_, rfl, by decide⟩
  rfl

/-- C5 (amended): `updateBlockContent` merges the partial update over the
existing content shallowly on every field except `position`, which is
always kept from the existing content; the merged value is applied to
local state first and the very same merged value is then persisted.  In
particular the `language` example of the spec holds. -/
theorem updateBlockContent_shallow_merge (page : PageState) (blockId : String)
    (newContent : Content) (block : Block)
    (hb : findBlock page blockId = some block) :
    (updateBlockContent page blockId newContent =
      ({ page with
          blocks := page.blocks.map (fun b =>
            if b.id == blockId then
              { b with content := mergeContent block.content newContent }
            else b) },
       [Event.localSetContent blockId (mergeContent block.content newContent),
        Event.apiUpdate blockId (mergeContent block.content newContent)])) ∧
    ((mergeContent block.content newContent).text =
        spreadOpt block.content.text newContent.text ∧
     (mergeContent block.content newContent).code =
        spreadOpt block.content.code newContent.code ∧
     (mergeContent block.content newContent).language =
        spreadOpt block.content.language newContent.language ∧
     (mergeContent block.content newContent).output =
        spreadOpt block.content.output newContent.output ∧
     (mergeContent block.content newContent).data =
        spreadOpt block.content.data newContent.data ∧
     (mergeContent block.content newContent).url =
        spreadOpt block.content.url newContent.url ∧
     (mergeContent block.content newContent).localData =
        spreadOpt block.content.localData newContent.localData ∧
     (mergeContent block.content newContent).position = block.content.position) ∧
    mergeContent
        { code := some "x", language := some "javascript", output := some "y" }
        { language := some "python" } =
      { code := some "x", language := some "python", output := some "y" } := by
  refine ⟨?_, ⟨rfl, rfl, rfl, rfl, rfl, rfl, rfl, rfl⟩, rfl⟩
  simp [updateBlockContent, hb]

/-- Closed witness for `updateBlockContent_shallow_merge` on the concrete
one-block page, updating only the language. -/
theorem updateBlockContent_shallow_merge_witness :
    (findBlock examplePage "b1" =
      some { id := "b1", pageId := "p1", type := BlockType.code,
             content := exampleOldContent, orderIndex := 0 }) ∧
    (updateBlockContent examplePage "b1" { language := some "python" } =
      ({ examplePage with
          blocks := examplePage.blocks.map (fun b =>
            if b.id == "b1" then
              { b with content := mergeContent exampleOldContent { language := some "python" } }
            else b) },
       [Event.localSetContent "b1" (mergeContent exampleOldContent { language := some "python" }),
        Event.apiUpdate "b1" (mergeContent exampleOldContent { language := some "python" })])) ∧
    ((mergeContent exampleOldContent { language := some "python" }).text =
        spreadOpt exampleOldContent.text none ∧
     (mergeContent exampleOldContent { language := some "python" }).code =
        spreadOpt exampleOldContent.code none ∧
     (mergeContent exampleOldContent { language := some "python" }).language =
        spreadOpt exampleOldContent.language (some "python") ∧
     (mergeContent exampleOldContent { language := some "python" }).output =
        spreadOpt exampleOldContent.output none ∧
     (mergeContent exampleOldContent { language := some "python" }).data =
        spreadOpt exampleOldContent.data none ∧
     (mergeContent exampleOldContent { language := some "python" }).url =
        spreadOpt exampleOldContent.url none ∧
     (mergeContent exampleOldContent { language := some "python" }).localData =
        spreadOpt exampleOldContent.localData none ∧
     (mergeContent exampleOldContent { language := some "python" }).position =
        exampleOldContent.position) ∧
    mergeContent
        { code := some "x", language := some "javascript", output := some "y" }
        { language := some "python" } =
      { code := some "x", language := some "python", output := some "y" } :=
  ⟨rfl, updateBlockContent_shallow_merge examplePage "b1" { language := some "python" } _ rfl⟩

lemma applyCandidate_id (blockId : String) (p : BlockPosition) (b : Block) :
    (applyCandidate blockId p b).id = b.id := by
  unfold applyCandidate
  split <;> rfl

lemma find?_map_of_id_preserved (g : Block → Block)
    (hg : ∀ b, (g b).id = b.id) (x : String) :
    ∀ l : List Block,
      (l.map g).find? (fun b => b.id == x) =
        (l.find? (fun b => b.id == x)).map g := by
  intro l
  induction l with
  | nil => rfl
  | cons b rest ih =>
      by_cases h : b.id == x
      · simp [List.find?_cons, hg, h]
      · simp only [List.map_cons, List.find?_cons, hg, h]
        simpa using ih

lemma handleCanvasMouseMove_preserves (s : CanvasState) (cx cy : ℚ) :
    (handleCanvasMouseMove s cx cy).1.isPanning = s.isPanning ∧
    (handleCanvasMouseMove s cx cy).1.dragState = s.dragState ∧
    (handleCanvasMouseMove s cx cy).1.scale = s.scale := by
  unfold handleCanvasMouseMove
  split
  · exact ⟨rfl, rfl, rfl⟩
  · split
    · exact ⟨rfl, rfl, rfl⟩
    · split
      · exact ⟨rfl, rfl, rfl⟩
      · exact ⟨rfl, rfl, rfl⟩

lemma handleCanvasMouseMove_no_persist (s : CanvasState) (cx cy : ℚ) :
    ((handleCanvasMouseMove s cx cy).2).countP isPersist = 0 := by
  unfold handleCanvasMouseMove
  split
  · rfl
  · split
    · rfl
    · split
      · rfl
      · simp [isPersist]

lemma handleCanvasMouseMove_drag_eq (s : CanvasState) (ds : DragState)
    (cx cy : ℚ) (hPan : s.isPanning = false) (hDrag : s.dragState = some ds)
    (b : Block) (hb : findBlock s.page ds.blockId = some b) :
    handleCanvasMouseMove s cx cy =
      ({ s with
          page := { s.page with
            blocks := s.page.blocks.map
              (applyCandidate ds.blockId (moveCandidate ds s.scale cx cy)) } },
       [Event.localSetPosition ds.blockId (moveCandidate ds s.scale cx cy)]) := by
  simp [handleCanvasMouseMove, hPan, hDrag, hb]

lemma findBlock_after_move (s : CanvasState) (cx cy : ℚ) (x : String) :
    (findBlock (handleCanvasMouseMove s cx cy).1.page x).isSome =
      (findBlock s.page x).isSome := by
  unfold handleCanvasMouseMove
  split
  · rfl
  · split
    · rfl
    · split
      · rfl
      · simp only [findBlock]
        rw [find?_map_of_id_preserved _ (fun b => applyCandidate_id _ _ b) x]
        cases (s.page.blocks.find? (fun b => b.id == x)) <;> rfl

lemma runMoves_invariant (moves : List (ℚ × ℚ)) :
    ∀ s : CanvasState, ∀ ds : DragState,
      s.isPanning = false → s.dragState = some ds →
      (findBlock s.page ds.blockId).isSome = true →
      ((runMoves s moves).1.isPanning = false ∧
       (runMoves s moves).1.dragState = some ds ∧
       (runMoves s moves).1.scale = s.scale ∧
       (findBlock (runMoves s moves).1.page ds.blockId).isSome = true ∧
       ((runMoves s moves).2).countP isPersist = 0) := by
  induction moves with
  | nil =>
      intro s ds hPan hDrag hSome
      exact ⟨hPan, hDrag, rfl, hSome, rfl⟩
  | cons mv rest ih =>
      intro s ds hPan hDrag hSome
      obtain ⟨cx, cy⟩ := mv
      have hpres := handleCanvasMouseMove_preserves s cx cy
      have hfind := findBlock_after_move s cx cy ds.blockId
      have hstep := ih (handleCanvasMouseMove s cx cy).1 ds
        (hpres.1.trans hPan) (hpres.2.1.trans hDrag) (hfind.trans hSome)
      refine ⟨hstep.1, hstep.2.1, hstep.2.2.1.trans hpres.2.2, hstep.2.2.2.1, ?_⟩
      simp only [runMoves, List.countP_append,
        handleCanvasMouseMove_no_persist s cx cy, hstep.2.2.2.2]

lemma handleCanvasMouseUp_eq (s : CanvasState) (ds : DragState)
    (hDrag : s.dragState = some ds) (b : Block)
    (hb : findBlock s.page ds.blockId = some b) :
    handleCanvasMouseUp s =
      ({ s with isPanning := false, dragState := none },
       [Event.apiUpdate ds.blockId
          { b.content with position := some (getBlockPosition b) }]) := by
  simp [handleCanvasMouseUp, saveBlockPosition, hDrag, hb]

/-- C6: for a drag gesture over any sequence of pointer moves, each move
applies the candidate rectangle — the gesture-start rectangle shifted by
the pointer delta divided by the scale, x and y snapped to the 20-unit
grid — to local state, no move issues a remote request, and the whole
gesture issues exactly one remote persist, which is the final event, at
pointer-up. -/
theorem drag_gesture_single_persist (s : CanvasState) (ds : DragState)
    (moves : List (ℚ × ℚ))
    (hPan : s.isPanning = false) (hDrag : s.dragState = some ds)
    (hMode : ds.mode = DragMode.drag)
    (hSome : (findBlock s.page ds.blockId).isSome = true) :
    ((runGesture s moves).2).countP isPersist = 1 ∧
    (∃ evs c, (runGesture s moves).2 = evs ++ [Event.apiUpdate ds.blockId c] ∧
      evs.countP isPersist = 0) ∧
    (∀ cx cy : ℚ, ∃ b2 : Block,
      findBlock (handleCanvasMouseMove s cx cy).1.page ds.blockId = some b2 ∧
      b2.content.position = some
        { x := snap (ds.startPos.x + (cx - ds.startX) / s.scale)
          y := snap (ds.startPos.y + (cy - ds.startY) / s.scale)
          width := ds.startPos.width
          height := ds.startPos.height } ∧
      (handleCanvasMouseMove s cx cy).2 =
        [Event.localSetPosition ds.blockId (moveCandidate ds s.scale cx cy)] ∧
      ((handleCanvasMouseMove s cx cy).2).countP isPersist = 0) := by
  have hinv := runMoves_invariant moves s ds hPan hDrag hSome
  obtain ⟨b1, hb1⟩ := Option.isSome_iff_exists.mp hinv.2.2.2.1
  have hup := handleCanvasMouseUp_eq (runMoves s moves).1 ds hinv.2.1 b1 hb1
  refine ⟨?_, ?_, ?_⟩
  · simp only [runGesture, hup, List.countP_append, hinv.2.2.2.2]
    simp [isPersist]
  · refine ⟨(runMoves s moves).2,
      { b1.content with position := some (getBlockPosition b1) }, ?_,
      hinv.2.2.2.2⟩
    simp only [runGesture, hup]
  · intro cx cy
    obtain ⟨b, hb⟩ := Option.isSome_iff_exists.mp hSome
    have hmove := handleCanvasMouseMove_drag_eq s ds cx cy hPan hDrag b hb
    have hid : (b.id == ds.blockId) = true := by
      have := List.find?_some hb
      simpa using this
    refine ⟨applyCandidate ds.blockId (moveCandidate ds s.scale cx cy) b,
      ?_, ?_, ?_, ?_⟩
    · rw [hmove]
      simp only [findBlock] at hb ⊢
      rw [find?_map_of_id_preserved _ (fun bb => applyCandidate_id _ _ bb)
        ds.blockId, hb]
      rfl
    · simp only [applyCandidate, hid, if_true, moveCandidate, hMode]
    · rw [hmove]
    · rw [hmove]
      simp [isPersist]

/-- A one-block page used by the gesture witnesses. -/
def exampleGesturePage : PageState :=
  { id := "p1", title := "t",
    blocks := [{ id := "g1", pageId := "p1", type := BlockType.text,
                 content := { text := some "hello" }, orderIndex := 0 }] }

/-- A concrete drag state for the gesture witnesses. -/
def exampleDragGesture : DragState :=
  { blockId := "g1", startX := 10, startY := 10,
    startPos := ⟨100, 100, 400, 150⟩, mode := DragMode.drag }

/-- A concrete canvas state mid-drag. -/
def exampleCanvasState : CanvasState :=
  { page := exampleGesturePage, scale := 1, offset := (0, 0),
    isPanning := false, panStart := (0, 0),
    dragState := some exampleDragGesture }

/-- Closed witness for `drag_gesture_single_persist`: a two-move drag
gesture on the concrete canvas state. -/
theorem drag_gesture_single_persist_witness :
    exampleCanvasState.isPanning = false ∧
    exampleCanvasState.dragState = some exampleDragGesture ∧
    exampleDragGesture.mode = DragMode.drag ∧
    (findBlock exampleCanvasState.page exampleDragGesture.blockId).isSome = true ∧
    (((runGesture exampleCanvasState [(37, 52), (90, 14)]).2).countP isPersist = 1 ∧
     (∃ evs c, (runGesture exampleCanvasState [(37, 52), (90, 14)]).2 =
        evs ++ [Event.apiUpdate exampleDragGesture.blockId c] ∧
        evs.countP isPersist = 0) ∧
     (∀ cx cy : ℚ, ∃ b2 : Block,
       findBlock (handleCanvasMouseMove exampleCanvasState cx cy).1.page
           exampleDragGesture.blockId = some b2 ∧
       b2.content.position = some
         { x := snap (exampleDragGesture.startPos.x +
                  (cx - exampleDragGesture.startX) / exampleCanvasState.scale)
           y := snap (exampleDragGesture.startPos.y +
                  (cy - exampleDragGesture.startY) / exampleCanvasState.scale)
           width := exampleDragGesture.startPos.width
           height := exampleDragGesture.startPos.height } ∧
       (handleCanvasMouseMove exampleCanvasState cx cy).2 =
         [Event.localSetPosition exampleDragGesture.blockId
            (moveCandidate exampleDragGesture exampleCanvasState.scale cx cy)] ∧
       ((handleCanvasMouseMove exampleCanvasState cx cy).2).countP isPersist = 0)) :=
  ⟨rfl, rfl, rfl, rfl,
   drag_gesture_single_persist exampleCanvasState exampleDragGesture
     [(37, 52), (90, 14)] rfl rfl rfl rfl⟩

/-- Equality of content payloads outside the `position` sub-record. -/
def nonPositionEq (c1 c2 : Content) : Prop :=
  c1.text = c2.text ∧ c1.code = c2.code ∧ c1.language = c2.language ∧
  c1.output = c2.output ∧ c1.data = c2.data ∧ c1.url = c2.url ∧
  c1.localData = c2.localData

/-- C10: during a gesture, a pointer move touches only the active block
and only its `position` sub-record — every other content field, the
block's identity fields, and every other block are unchanged — and the
persist-on-release request sends the block's existing content with only
`position` replaced. -/
theorem gesture_updates_only_position (s : CanvasState) (ds : DragState)
    (cx cy : ℚ) (hPan : s.isPanning = false) (hDrag : s.dragState = some ds)
    (b : Block) (hb : findBlock s.page ds.blockId = some b) :
    (handleCanvasMouseMove s cx cy).1.page.blocks.length =
        s.page.blocks.length ∧
    (∀ i : ℕ, ∀ old upd : Block,
      s.page.blocks[i]? = some old →
      (handleCanvasMouseMove s cx cy).1.page.blocks[i]? = some upd →
      (((old.id == ds.blockId) = false → upd = old) ∧
       ((old.id == ds.blockId) = true →
         upd.id = old.id ∧ upd.pageId = old.pageId ∧ upd.type = old.type ∧
         upd.orderIndex = old.orderIndex ∧
         nonPositionEq upd.content old.content ∧
         upd.content.position = some (moveCandidate ds s.scale cx cy)))) ∧
    (∃ c, (handleCanvasMouseUp s).2 = [Event.apiUpdate ds.blockId c] ∧
      nonPositionEq c b.content ∧
      c.position = some (getBlockPosition b)) := by
  have hmove := handleCanvasMouseMove_drag_eq s ds cx cy hPan hDrag b hb
  have hup := handleCanvasMouseUp_eq s ds hDrag b hb
  refine ⟨?_, ?_, ?_⟩
  · rw [hmove]
    exact List.length_map _ _
  · intro i old upd hold hupd
    rw [hmove] at hupd
    simp only [List.getElem?_map, hold, Option.map_some', Option.some_inj] at hupd
    subst hupd
    constructor
    · intro hne
      simp [applyCandidate, hne]
    · intro heq
      simp [applyCandidate, heq, nonPositionEq]
  · exact ⟨{ b.content with position := some (getBlockPosition b) },
      by rw [hup], ⟨rfl, rfl, rfl, rfl, rfl, rfl, rfl⟩, rfl⟩

/-- Closed witness for `gesture_updates_only_position` on the concrete
mid-drag canvas state, with the pointer at (37, 52). -/
theorem gesture_updates_only_position_witness :
    exampleCanvasState.isPanning = false ∧
    exampleCanvasState.dragState = some exampleDragGesture ∧
    findBlock exampleCanvasState.page exampleDragGesture.blockId =
      some { id := "g1", pageId := "p1", type := BlockType.text,
             content := { text := some "hello" }, orderIndex := 0 } ∧
    ((handleCanvasMouseMove exampleCanvasState 37 52).1.page.blocks.length =
        exampleCanvasState.page.blocks.length ∧
     (∀ i : ℕ, ∀ old upd : Block,
       exampleCanvasState.page.blocks[i]? = some old →
       (handleCanvasMouseMove exampleCanvasState 37 52).1.page.blocks[i]? = some upd →
       (((old.id == exampleDragGesture.blockId) = false → upd = old) ∧
        ((old.id == exampleDragGesture.blockId) = true →
          upd.id = old.id ∧ upd.pageId = old.pageId ∧ upd.type = old.type ∧
          upd.orderIndex = old.orderIndex ∧
          nonPositionEq upd.content old.content ∧
          upd.content.position =
            some (moveCandidate exampleDragGesture exampleCanvasState.scale 37 52)))) ∧
     (∃ c, (handleCanvasMouseUp exampleCanvasState).2 =
         [Event.apiUpdate exampleDragGesture.blockId c] ∧
       nonPositionEq c
         ({ id := "g1", pageId := "p1", type := BlockType.text,
            content := { text := some "hello" }, orderIndex := 0 } : Block).content ∧
       c.position = some (getBlockPosition
         { id := "g1", pageId := "p1", type := BlockType.text,
           content := { text := some "hello" }, orderIndex := 0 }))) :=
  ⟨rfl, rfl, rfl,
   gesture_updates_only_position exampleCanvasState exampleDragGesture 37 52
     rfl rfl _ rfl⟩

/-- The outcome of the `pagesApi.getById` call made by `loadPage`. -/
inductive LoadResult where
  | ok (p : PageState)
  | failure
deriving DecidableEq, Repr

/-- Router navigations a component could issue.  `InfiniteCanvas` imports
no navigation hook, so its handlers can never emit one. -/
inductive NavEvent where
  | toPageList
deriving DecidableEq, Repr

/-- What the component renders: the select-a-page prompt, the loading
spinner, the `Page not found` placeholder, or the editor. -/
inductive View where
  | selectPrompt
  | loading
  | pageNotFound
  | editor (p : PageState)
deriving DecidableEq, Repr

/-- `loadPage`: on success, store the fetched page; on failure, log and
leave the local page state unchanged.  The second component lists the
navigations performed — always none. -/
def loadPage (prev : Option PageState) (r : LoadResult) :
    Option PageState × List NavEvent :=
  match r with
  | LoadResult.ok p => (some p, [])
  | LoadResult.failure => (prev, [])

/-- The component's early-return render logic: no `pageId` shows the
select prompt, `isLoading` shows the spinner, a missing page shows the
`Page not found` placeholder, otherwise the editor. -/
def render (pageId : Option String) (isLoading : Bool)
    (page : Option PageState) : View :=
  match pageId with
  | none => View.selectPrompt
  | some _ =>
      if isLoading then View.loading
      else
        match page with
        | none => View.pageNotFound
        | some p => View.editor p

/-- C7 counterexample: when the load of a page fails, the component does
not route the user back to the page list — it performs no navigation at
all, and renders the `Page not found` placeholder inside the editor
view. -/
theorem loadPage_failure_no_navigation :
    (loadPage none LoadResult.failure).2 = [] ∧
    (loadPage none LoadResult.failure).2 ≠ [NavEvent.toPageList] ∧
    render (some "p1") false (loadPage none LoadResult.failure).1 =
      View.pageNotFound := by
  refine ⟨rfl, ?_, rfl⟩
  decide

/-- C7 (amended): when `load(pageId)` fails, the error is only logged —
no navigation away from the editor occurs, the local page state is left
unchanged (still `none` on a first load), and the component renders the
`Page not found` placeholder rather than a broken editor state. -/
theorem loadPage_failure_renders_placeholder (prev : Option PageState)
    (pid : String) :
    loadPage prev LoadResult.failure = (prev, []) ∧
    render (some pid) false none = View.pageNotFound :=
  ⟨rfl, rfl⟩

/-- `deleteBlock(blockId)`: optimistically filter the block out of local
state, then call the remote delete; on failure, `loadPage()` re-fetches
the page.  `remoteOk` is the outcome of the delete call and `reloadRes`
the outcome of the recovery fetch. -/
def deleteBlock (page : PageState) (blockId : String) (remoteOk : Bool)
    (reloadRes : LoadResult) : PageState × List Event :=
  let optimistic : PageState :=
    { page with blocks := page.blocks.filter (fun b => !(b.id == blockId)) }
  if remoteOk then
    (optimistic, [Event.localRemoveBlock blockId, Event.apiDelete blockId])
  else
    match reloadRes with
    | LoadResult.ok sp =>
        (sp, [Event.localRemoveBlock blockId, Event.apiDelete blockId,
              Event.reloadPage])
    | LoadResult.failure =>
        (optimistic, [Event.localRemoveBlock blockId, Event.apiDelete blockId,
                      Event.reloadPage])

/-- C8: `deleteBlock` removes the block from local state before the remote
call (the local removal precedes the delete request in the effect trace);
on success the optimistic removal stands, and on a failed remote delete
the page is reloaded, so the final local state equals the fresh load of
the page — no orphaned optimistic removal remains. -/
theorem deleteBlock_optimistic_reload (page : PageState) (blockId : String)
    (serverPage : PageState) :
    (deleteBlock page blockId true (LoadResult.ok serverPage) =
      ({ page with blocks := page.blocks.filter (fun b => !(b.id == blockId)) },
       [Event.localRemoveBlock blockId, Event.apiDelete blockId])) ∧
    (deleteBlock page blockId false (LoadResult.ok serverPage) =
      (serverPage,
       [Event.localRemoveBlock blockId, Event.apiDelete blockId,
        Event.reloadPage])) := by
  exact ⟨rfl, rfl⟩

/-- JavaScript `v || d` on an optional number: `undefined` and `0` both
fall back to the default. -/
def jsOr (v : Option ℚ) (d : ℚ) : ℚ :=
  match v with
  | some x => if x = 0 then d else x
  | none => d

/-- The type-specific default content built by `addBlock`. -/
def baseContent : BlockType → Content
  | BlockType.text => { text := some "" }
  | BlockType.code =>
      { code := some "// Write your code here\nconsole.log(\"Hello World!\");",
        language := some "javascript", output := some "" }
  | BlockType.drawing => { data := none }
  | BlockType.image => { url := some "", localData := none }

/-- The initial rectangle computed by `addBlock`: the visual center of the
current viewport in canvas space, minus half the type's default size, with
x and y snapped to the 20-unit grid. -/
def addBlockPosition (ty : BlockType) (offset : ℚ × ℚ) (scale : ℚ)
    (clientWidth clientHeight : Option ℚ) : BlockPosition :=
  let size := DEFAULT_SIZES ty
  let centerX := (-offset.1 + (jsOr clientWidth 800) / 2) / scale - size.width / 2
  let centerY := (-offset.2 + (jsOr clientHeight 600) / 2) / scale - size.height / 2
  { x := snap centerX, y := snap centerY,
    width := size.width, height := size.height }

/-- `addBlock(type)`: send a create request carrying the default content
with the computed position and `orderIndex = page.blocks.length`; append
the server-assigned block to local state only on success. -/
def addBlock (page : PageState) (ty : BlockType) (offset : ℚ × ℚ)
    (scale : ℚ) (clientWidth clientHeight : Option ℚ)
    (serverResult : Option Block) : PageState × List Event :=
  let position := addBlockPosition ty offset scale clientWidth clientHeight
  let content := { baseContent ty with position := some position }
  let req := Event.apiCreate page.id ty content page.blocks.length
  match serverResult with
  | some newBlock =>
      ({ page with blocks := page.blocks ++ [newBlock] },
       [req, Event.localAppendBlock newBlock])
  | none => (page, [req])

/-- C9: `addBlock` places the new block at the viewport's visual center in
canvas space minus half the type's default size, grid-snapped by rounding;
the server-assigned block is appended to local state only on success, and
on failure local state is unchanged (no optimistic insert).  At scale 1,
offset (0,0) and an 800×600 canvas, a text block lands on the grid point
(200, 220) — the snap of (200, 225). -/
theorem addBlock_centered_snapped (page : PageState) (ty : BlockType)
    (offset : ℚ × ℚ) (scale : ℚ) (cw ch : Option ℚ) (blk : Block) :
    (addBlockPosition ty offset scale cw ch =
      { x := snap ((-offset.1 + (jsOr cw 800) / 2) / scale -
                (DEFAULT_SIZES ty).width / 2)
        y := snap ((-offset.2 + (jsOr ch 600) / 2) / scale -
                (DEFAULT_SIZES ty).height / 2)
        width := (DEFAULT_SIZES ty).width
        height := (DEFAULT_SIZES ty).height }) ∧
    (addBlock page ty offset scale cw ch (some blk) =
      ({ page with blocks := page.blocks ++ [blk] },
       [Event.apiCreate page.id ty
          { baseContent ty with
              position := some (addBlockPosition ty offset scale cw ch) }
          page.blocks.length,
        Event.localAppendBlock blk])) ∧
    (addBlock page ty offset scale cw ch none =
      (page,
       [Event.apiCreate page.id ty
          { baseContent ty with
              position := some (addBlockPosition ty offset scale cw ch) }
          page.blocks.length])) ∧
    addBlockPosition BlockType.text (0, 0) 1 (some 800) (some 600) =
      ⟨200, 220, 400, 150⟩ ∧
    snap ((-(0 : ℚ) + 800 / 2) / 1 - 400 / 2) = 200 ∧
    snap ((-(0 : ℚ) + 600 / 2) / 1 - 150 / 2) = 220 := by
  refine ⟨rfl, rfl, rfl, ?_, ?_, ?_⟩ <;>
    norm_num [addBlockPosition, jsOr, DEFAULT_SIZES, snap, GRID_SIZE, round_eq,
      BlockPosition.mk.injEq]
